import Mathlib

/-!
Verification of the parametric-yantra generation and validation core.

Shallow embedding of `src/backend/services/samrat_yantra.py`,
`src/backend/services/rama_yantra.py`, `src/backend/services/validation.py`
and the accuracy-validation part of `src/backend/app/api/generate.py`.

Conventions of the embedding:
* Python floats are embedded as exact numbers: the purely arithmetic
  geometry computations (products of the scale with fixed decimal factors,
  `max`, additive kerf) use `ℚ`, so they are executable; the trigonometric
  prediction computations use `ℝ`.
* A Python method that can `raise` is embedded as `Except String _`; the
  message of `ValueError("Must call generate() first")` is the error value.
  `if not self.geometry` on a dataclass field that is either `None` or a
  (always truthy) dataclass instance tests exactly `geometry = none`,
  so the generator state is an `Option` of the geometry record.
* Heterogeneous Python dicts are embedded as structures; a key that a
  particular prediction dict may or may not contain (`altitude_reading`,
  `azimuth_reading`, read with `dict.get(key, default)`) is an `Option ℝ`
  field, `none` when the source never puts the key in the dict.
* Python `x % m` on floats (sign of the divisor, result in `[0, m)` for
  `m > 0`) is embedded as `pymod` below; `x ** 0.5` on a non-negative
  float is `Real.sqrt`; `float("inf")` never escapes the functions that
  use it (it only feeds `min` and `<=`), so those uses are folded into
  the embedding at the point of use, with comments.
-/

/-- Degrees to radians, `math.radians`. -/
noncomputable def radians (d : ℝ) : ℝ := d * Real.pi / 180

/-- Radians to degrees, `math.degrees`. -/
noncomputable def degrees (r : ℝ) : ℝ := r * 180 / Real.pi

/-- Two-argument arctangent with the quadrant convention of `math.atan2`:
the result is in `(-pi, pi]`, `atan2 y x` has the sign of `y` when `x < 0`,
and the degenerate `x = 0` column follows the C convention. -/
noncomputable def atan2 (y x : ℝ) : ℝ :=
  if 0 < x then Real.arctan (y / x)
  else if x < 0 then
    (if 0 ≤ y then Real.arctan (y / x) + Real.pi else Real.arctan (y / x) - Real.pi)
  else
    (if 0 < y then Real.pi / 2 else if y < 0 then -(Real.pi / 2) else 0)

/-- Python float `x % m`: the representative of `x` modulo `m` lying in
`[0, m)` when `m > 0`. -/
noncomputable def pymod (x m : ℝ) : ℝ := x - m * ⌊x / m⌋

/-- `pymod x m` agrees with `x - k * m` on the window `[k*m, (k+1)*m)`. -/
theorem pymod_eq_of_window (x m : ℝ) (k : ℤ) (hm : 0 < m)
    (h1 : (k : ℝ) * m ≤ x) (h2 : x < ((k : ℝ) + 1) * m) :
    pymod x m = x - k * m := by
  have hfloor : ⌊x / m⌋ = k := by
    rw [Int.floor_eq_iff]
    constructor
    · rw [le_div_iff₀ hm]
      exact h1
    · rw [div_lt_iff₀ hm]
      exact h2
  rw [pymod, hfloor]
  ring

/-- `pymod` is invariant under adding one period. -/
theorem pymod_add_period (x m : ℝ) (hm : 0 < m) :
    pymod (x + m) m = pymod x m := by
  have hm0 : m ≠ 0 := ne_of_gt hm
  have h : (x + m) / m = x / m + 1 := by field_simp
  rw [pymod, pymod, h, Int.floor_add_one]
  push_cast
  ring

/-- `pymod x m` lies in `[0, m)` for a positive modulus. -/
theorem pymod_mem_Ico (x m : ℝ) (hm : 0 < m) :
    0 ≤ pymod x m ∧ pymod x m < m := by
  constructor
  · have h := Int.floor_le (x / m)
    rw [pymod, sub_nonneg]
    calc m * ⌊x / m⌋ ≤ m * (x / m) := by
          exact mul_le_mul_of_nonneg_left h (le_of_lt hm)
      _ = x := by field_simp
  · have h := Int.lt_floor_add_one (x / m)
    rw [pymod, sub_lt_iff_lt_add]
    calc x = m * (x / m) := by field_simp
      _ < m * (⌊x / m⌋ + 1) := by
          exact mul_lt_mul_of_pos_left h hm
      _ = m + m * ⌊x / m⌋ := by ring

/-- `pymod` of an exact integer multiple of the modulus is zero. -/
theorem pymod_int_mul (m : ℝ) (k : ℤ) (hm : 0 < m) :
    pymod ((k : ℝ) * m) m = 0 := by
  have h := pymod_eq_of_window ((k : ℝ) * m) m k hm (le_refl _)
    (by nlinarith)
  rw [h]
  ring

/-! ## Geometry records and `generate`

`SamratGeometry` and `RamaGeometry` mirror the dataclasses of
`samrat_yantra.py` lines 10-21 and `rama_yantra.py` lines 10-22; the
generation functions mirror `SamratYantraGenerator.generate`
(lines 44-106) and `RamaYantraGenerator.generate` (lines 48-115). -/

structure SamratGeometry where
  gnomon_height : ℚ
  gnomon_base_width : ℚ
  gnomon_thickness : ℚ
  quadrant_radius : ℚ
  hour_line_angles : List ℚ
  scale_divisions : ℕ
  base_length : ℚ
  base_width : ℚ
  base_height : ℚ
deriving DecidableEq

structure RamaGeometry where
  pillar_radius : ℚ
  pillar_height : ℚ
  pillar_separation : ℚ
  wall_thickness : ℚ
  azimuth_divisions : ℕ
  altitude_scale_height : ℚ
  central_platform_radius : ℚ
  gnomon_height : ℚ
  base_diameter : ℚ
  base_height : ℚ
deriving DecidableEq

/-- Body of `SamratYantraGenerator.generate` (samrat_yantra.py lines 58-104).
The `for hour in range(-6, 7)` loop building `hour_angles` is embedded as a
map over `List.range 13`. -/
def samratGeometry (scale material_thickness kerf : ℚ)
    (include_base : Bool) : SamratGeometry :=
  let gnomon_height := scale
  let gnomon_base_width := gnomon_height * 0.15
  let gnomon_thickness := material_thickness
  let quadrant_radius := gnomon_height * 0.7
  let hour_angles : List ℚ := (List.range 13).map (fun (i : ℕ) => ((i : ℚ) - 6) * 15.0)
  let scale_divisions : ℕ := 60
  let base_length := if include_base then quadrant_radius * 2.5 else 0
  let base_width := if include_base then quadrant_radius * 2.5 else 0
  let base_height := if include_base then gnomon_height * 0.05 else 0
  let gnomon_base_width := if kerf > 0 then gnomon_base_width + kerf else gnomon_base_width
  let quadrant_radius := if kerf > 0 then quadrant_radius + kerf else quadrant_radius
  ⟨gnomon_height, gnomon_base_width, gnomon_thickness, quadrant_radius,
    hour_angles, scale_divisions, base_length, base_width, base_height⟩

/-- `SamratYantraGenerator.generate` as a fallible call: the method body
contains no `raise`, so it always returns its geometry. -/
def samratGenerate (scale material_thickness kerf : ℚ)
    (include_base : Bool) : Except String SamratGeometry :=
  Except.ok (samratGeometry scale material_thickness kerf include_base)

/-- Body of `RamaYantraGenerator.generate` (rama_yantra.py lines 62-113).
Note `base_diameter` is computed from the pre-kerf `pillar_radius`. -/
def ramaGeometry (scale material_thickness kerf : ℚ)
    (include_base : Bool) : RamaGeometry :=
  let pillar_radius := scale
  let pillar_height := pillar_radius * 2.0
  let pillar_separation := pillar_radius * 0.5
  let wall_thickness := max material_thickness (pillar_radius * 0.1)
  let azimuth_divisions : ℕ := 360
  let altitude_scale_height := pillar_height
  let central_platform_radius := pillar_separation * 0.4
  let gnomon_height := pillar_height * 0.3
  let base_diameter := if include_base then (pillar_radius * 2 + pillar_separation) * 1.3 else 0
  let base_height := if include_base then pillar_height * 0.03 else 0
  let pillar_radius := if kerf > 0 then pillar_radius + kerf else pillar_radius
  let wall_thickness := if kerf > 0 then wall_thickness + kerf else wall_thickness
  ⟨pillar_radius, pillar_height, pillar_separation, wall_thickness,
    azimuth_divisions, altitude_scale_height, central_platform_radius,
    gnomon_height, base_diameter, base_height⟩

/-- `RamaYantraGenerator.generate` as a fallible call: the method body
contains no `raise`, so it always returns its geometry. -/
def ramaGenerate (scale material_thickness kerf : ℚ)
    (include_base : Bool) : Except String RamaGeometry :=
  Except.ok (ramaGeometry scale material_thickness kerf include_base)

/-- True exactly on the `raise` outcome of an embedded method. -/
def isErr {ε α : Type} : Except ε α → Bool
  | Except.error _ => true
  | Except.ok _ => false

/-! ## Shadow predictions (`get_shadow_prediction`)

The method bodies after the `generate()` guard, as pure functions of the
stored latitude (radians), the geometry and the sun position (degrees). -/

inductive Quadrant
  | east
  | west
deriving DecidableEq

inductive Sector
  | A
  | B
deriving DecidableEq

/-- The dict returned by `SamratYantraGenerator.get_shadow_prediction`
(samrat_yantra.py lines 249-258).  It has no `altitude_reading` and no
`azimuth_reading` key, so those `Option` fields are `none`. -/
structure SamratPrediction where
  sun_altitude : ℝ
  sun_azimuth : ℝ
  shadow_azimuth : ℝ
  hour_angle : ℝ
  local_solar_time : ℝ
  quadrant : Quadrant
  shadow_length : ℝ
  readable : Prop
  altitude_reading : Option ℝ
  azimuth_reading : Option ℝ

/-- Body of `SamratYantraGenerator.get_shadow_prediction`
(samrat_yantra.py lines 216-258).  The source sets `shadow_length` to
`gnomon_height / tan(alt_rad)` for a positive altitude and to float `inf`
otherwise, then returns `min(shadow_length, quadrant_radius)`; since
`min(inf, r) = r`, the non-positive branch is embedded as the radius. -/
noncomputable def samratShadowPrediction (latitude : ℝ) (g : SamratGeometry)
    (sun_altitude sun_azimuth : ℝ) : SamratPrediction :=
  let alt_rad := radians sun_altitude
  let az_rad := radians sun_azimuth
  let shadow_azimuth := pymod (sun_azimuth + 180) 360
  let sin_ha := Real.sin az_rad / Real.cos alt_rad
  let cos_ha := (Real.sin alt_rad - Real.sin latitude) /
      (Real.cos latitude * Real.cos alt_rad)
  let hour_angle_rad := atan2 sin_ha cos_ha
  let hour_angle_deg := degrees hour_angle_rad
  let local_solar_time := 12.0 + hour_angle_deg / 15.0
  let quadrant := if hour_angle_deg < 0 then Quadrant.east else Quadrant.west
  let shadow_length := if 0 < sun_altitude then
      min ((g.gnomon_height : ℝ) / Real.tan alt_rad) (g.quadrant_radius : ℝ)
    else (g.quadrant_radius : ℝ)
  ⟨sun_altitude, sun_azimuth, shadow_azimuth, hour_angle_deg,
    local_solar_time, quadrant, shadow_length,
    0 < sun_altitude ∧ sun_altitude < 85, none, none⟩

/-- The dict returned by `RamaYantraGenerator.get_shadow_prediction`
(rama_yantra.py lines 309-320).  `shadow_tip` is `none` when the source
computes non-finite float coordinates (sun at or below the horizon). -/
structure RamaPrediction where
  sun_altitude : ℝ
  sun_azimuth : ℝ
  shadow_azimuth : ℝ
  shadow_length : ℝ
  shadow_tip : Option (ℝ × ℝ × ℝ)
  wall_height : ℝ
  sector : Sector
  readable : Prop
  azimuth_reading : Option ℝ
  altitude_reading : Option ℝ

/-- Body of `RamaYantraGenerator.get_shadow_prediction`
(rama_yantra.py lines 283-320).  `shadow_length_floor` is
`gnomon_height / tan(radians(alt))` for a positive altitude and float
`inf` otherwise; its uses are embedded accordingly: `inf <= r` is `False`
(so `reaches_wall` carries the positivity guard) and `min(inf, r) = r`. -/
noncomputable def ramaShadowPrediction (g : RamaGeometry)
    (sun_altitude sun_azimuth : ℝ) : RamaPrediction :=
  let shadow_azimuth := pymod (sun_azimuth + 180) 360
  let shadow_length_floor := (g.gnomon_height : ℝ) / Real.tan (radians sun_altitude)
  let wall_shadow_height := (g.gnomon_height : ℝ) * Real.tan (radians sun_altitude)
  let in_sector_A := (45 ≤ shadow_azimuth ∧ shadow_azimuth ≤ 135) ∨
      (225 ≤ shadow_azimuth ∧ shadow_azimuth ≤ 315)
  let max_floor_radius := (g.pillar_radius : ℝ) - (g.wall_thickness : ℝ)
  let reaches_wall : Prop :=
    if 0 < sun_altitude then shadow_length_floor ≤ max_floor_radius else False
  ⟨sun_altitude, sun_azimuth, shadow_azimuth,
    (if 0 < sun_altitude then min shadow_length_floor max_floor_radius
      else max_floor_radius),
    (if 0 < sun_altitude then
        some (shadow_length_floor * Real.sin (radians shadow_azimuth),
          shadow_length_floor * Real.cos (radians shadow_azimuth), 0)
      else none),
    min wall_shadow_height (g.pillar_height : ℝ),
    (if in_sector_A then Sector.A else Sector.B),
    (0 < sun_altitude ∧ sun_altitude < 85) ∧ reaches_wall,
    some shadow_azimuth, some sun_altitude⟩

/-! ## The two validator implementations

`ValidationService.compare_shadow` (validation.py lines 12-32) and the
error/tier computation of `validate_yantra_accuracy`
(generate.py lines 227-243).  Both read the prediction dict with
`dict.get(key, truth_value)`, embedded as `Option.getD`; the oracle truth
altitude/azimuth are universally quantified inputs here, standing for any
`EphemerisService.get_sun_position` output.  The `declination` and
`hour_angle` entries of `compare_shadow`'s result are verbatim copies of
oracle truth values and are not modelled. -/

/-- validation.py line 22: smallest angular difference for azimuth. -/
noncomputable def smallestAzimuthDifference (az_pred truth_az : ℝ) : ℝ :=
  |pymod (az_pred - truth_az + 540) 360 - 180|

structure ShadowComparison where
  altitude_error : ℝ
  azimuth_error : ℝ
  rms_error : ℝ
  predicted_altitude : ℝ
  predicted_azimuth : ℝ

/-- `ValidationService.compare_shadow` error arithmetic (validation.py
lines 17-23); `x ** 0.5` on the non-negative sum of squares is `sqrt`. -/
noncomputable def compareShadow (altitude_reading azimuth_reading : Option ℝ)
    (truth_alt truth_az : ℝ) : ShadowComparison :=
  let alt_pred := altitude_reading.getD truth_alt
  let az_pred := azimuth_reading.getD truth_az
  let alt_err := |alt_pred - truth_alt|
  let az_diff := smallestAzimuthDifference az_pred truth_az
  ⟨alt_err, az_diff, Real.sqrt (alt_err ^ 2 + az_diff ^ 2), alt_pred, az_pred⟩

/-- `compare_shadow` applied to a Samrat generator. -/
noncomputable def compareShadowSamrat (latitude : ℝ) (g : SamratGeometry)
    (truth_alt truth_az : ℝ) : ShadowComparison :=
  let pred := samratShadowPrediction latitude g truth_alt truth_az
  compareShadow pred.altitude_reading pred.azimuth_reading truth_alt truth_az

/-- `compare_shadow` applied to a Rama generator. -/
noncomputable def compareShadowRama (g : RamaGeometry)
    (truth_alt truth_az : ℝ) : ShadowComparison :=
  let pred := ramaShadowPrediction g truth_alt truth_az
  compareShadow pred.altitude_reading pred.azimuth_reading truth_alt truth_az

inductive AccuracyLevel
  | excellent
  | good
  | acceptable
  | poor
deriving DecidableEq

/-- generate.py line 228: altitude error of `validate_yantra_accuracy`. -/
noncomputable def apiAltitudeError (altitude_reading : Option ℝ)
    (truth_alt : ℝ) : ℝ :=
  |altitude_reading.getD truth_alt - truth_alt|

/-- generate.py line 229: azimuth error of `validate_yantra_accuracy`
(plain absolute difference, no wrap-around). -/
noncomputable def apiAzimuthError (azimuth_reading : Option ℝ)
    (truth_az : ℝ) : ℝ :=
  |azimuth_reading.getD truth_az - truth_az|

/-- generate.py line 233: the larger of the two errors. -/
noncomputable def apiMaxError (altitude_reading azimuth_reading : Option ℝ)
    (truth_alt truth_az : ℝ) : ℝ :=
  max (apiAltitudeError altitude_reading truth_alt)
    (apiAzimuthError azimuth_reading truth_az)

/-- generate.py lines 236-243: accuracy tier from the max error. -/
noncomputable def accuracyFor (max_error : ℝ) : AccuracyLevel :=
  if max_error < 0.1 then AccuracyLevel.excellent
  else if max_error < 0.5 then AccuracyLevel.good
  else if max_error < 1.0 then AccuracyLevel.acceptable
  else AccuracyLevel.poor

/-! ## Derived-query methods and their `generate()` guard

Each query method of the two generator classes begins with
`if not self.geometry: raise ValueError("Must call generate() first")`;
the stored geometry is `None` until `generate` assigns it, and a dataclass
instance is always truthy, so the guard fires exactly on the
not-yet-generated state.  Presentation-only strings of the source
(`dimensions` f-strings and `notes` in the bills of materials) are not
modelled; every computed number is. -/

def mustGenerateFirst : String := "Must call generate() first"

structure HourLine where
  quadrant : Quadrant
  hour_angle : ℚ
  hour_label : ℚ
  start : ℝ × ℝ × ℝ
  endPoint : ℝ × ℝ × ℝ

/-- One iteration of the nested loops of `get_hour_line_coordinates`
(samrat_yantra.py lines 120-156). -/
noncomputable def hourLineFor (latitude : ℝ) (g : SamratGeometry)
    (q : Quadrant) (angle_deg : ℚ) : HourLine :=
  let angle_rad := radians (angle_deg : ℝ)
  let start_radius := (g.gnomon_base_width : ℝ) / 2
  let end_radius := (g.quadrant_radius : ℝ)
  let multiplier : ℝ := if q = Quadrant.east then 1 else -1
  let start_x := multiplier * start_radius * Real.cos angle_rad
  let start_y := start_radius * Real.sin angle_rad
  let end_x := multiplier * end_radius * Real.cos angle_rad
  let end_y := end_radius * Real.sin angle_rad
  let surface_angle := Real.pi / 2 - latitude
  let start_z := start_y * Real.tan surface_angle
  let end_z := end_y * Real.tan surface_angle
  ⟨q, angle_deg, angle_deg / 15.0, (start_x, start_y, start_z),
    (end_x, end_y, end_z)⟩

/-- `SamratYantraGenerator.get_hour_line_coordinates`
(samrat_yantra.py lines 108-158). -/
noncomputable def samratHourLineCoordinates (latitude : ℝ)
    (geometry : Option SamratGeometry) : Except String (List HourLine) :=
  match geometry with
  | none => Except.error mustGenerateFirst
  | some g => Except.ok (g.hour_line_angles.flatMap (fun a =>
      [hourLineFor latitude g Quadrant.east a,
        hourLineFor latitude g Quadrant.west a]))

/-- `SamratYantraGenerator.get_gnomon_vertices`
(samrat_yantra.py lines 160-200): four base and four apex vertices. -/
noncomputable def samratGnomonVertices (latitude : ℝ)
    (geometry : Option SamratGeometry) : Except String (List (ℝ × ℝ × ℝ)) :=
  match geometry with
  | none => Except.error mustGenerateFirst
  | some g =>
    let h := (g.gnomon_height : ℝ)
    let w := (g.gnomon_base_width : ℝ)
    let t := (g.gnomon_thickness : ℝ)
    let apex_x : ℝ := 0
    let apex_y := h * Real.cos latitude
    let apex_z := h * Real.sin latitude
    Except.ok [(-w / 2, -t / 2, 0), (w / 2, -t / 2, 0),
      (-w / 2, t / 2, 0), (w / 2, t / 2, 0),
      (apex_x - t / 4, apex_y - t / 2, apex_z),
      (apex_x + t / 4, apex_y - t / 2, apex_z),
      (apex_x - t / 4, apex_y + t / 2, apex_z),
      (apex_x + t / 4, apex_y + t / 2, apex_z)]

/-- Flattened form of the nested dict built by
`SamratYantraGenerator.get_dimensions_dict` (samrat_yantra.py 260-293). -/
structure SamratDimensions where
  yantra_type : String
  latitude : ℝ
  scale : ℚ
  gnomon_height : ℚ
  gnomon_base_width : ℚ
  gnomon_thickness : ℚ
  inclination_angle : ℝ
  quadrant_radius : ℚ
  hour_lines : ℕ
  scale_divisions : ℕ
  base_length : ℚ
  base_width : ℚ
  base_height : ℚ
  overall_length : ℚ
  overall_width : ℚ
  overall_height : ℚ

/-- `SamratYantraGenerator.get_dimensions_dict` (samrat_yantra.py 260-293);
`latitude` is the stored radians value, reported via `math.degrees`. -/
noncomputable def samratDimensionsDict (latitude : ℝ) (scale : ℚ)
    (geometry : Option SamratGeometry) : Except String SamratDimensions :=
  match geometry with
  | none => Except.error mustGenerateFirst
  | some g => Except.ok ⟨r"samrat", degrees latitude, scale,
      g.gnomon_height, g.gnomon_base_width, g.gnomon_thickness,
      degrees latitude, g.quadrant_radius, g.hour_line_angles.length,
      g.scale_divisions, g.base_length, g.base_width, g.base_height,
      g.base_length, g.base_width, g.gnomon_height + g.base_height⟩

/-- One line of a bill of materials: the computed quantities of an entry
(`volume_m3` or `area_m2` present exactly when the source dict has the
key). -/
structure BomItem where
  item : String
  material : String
  quantity : ℕ
  volume_m3 : Option ℝ
  area_m2 : Option ℝ

/-- `SamratYantraGenerator.get_bill_of_materials`
(samrat_yantra.py lines 295-341). -/
noncomputable def samratBillOfMaterials
    (geometry : Option SamratGeometry) : Except String (List BomItem) :=
  match geometry with
  | none => Except.error mustGenerateFirst
  | some g =>
    let gnomon_volume := ((g.gnomon_height : ℝ) * (g.gnomon_base_width : ℝ) *
      (g.gnomon_thickness : ℝ)) * 0.5
    let quadrant_area := Real.pi * (g.quadrant_radius : ℝ) ^ 2
    let base_volume := (g.base_length : ℝ) * (g.base_width : ℝ) * (g.base_height : ℝ)
    Except.ok [
      ⟨r"Gnomon plate (triangular)", r"Steel/Stone/Concrete", 1,
        some gnomon_volume, none⟩,
      ⟨r"Quadrant scales (East & West)", r"Marble/Metal with graduations", 2,
        none, some quadrant_area⟩,
      ⟨r"Base platform", r"Concrete/Stone", 1, some base_volume, none⟩,
      ⟨r"Anchor bolts", r"Stainless steel", 4, none, none⟩]

/-- `RamaYantraGenerator.get_pillar_vertices` (rama_yantra.py 117-177):
an outer and an inner ring of bottom/top vertex pairs over 61 samples of
the sector's angular span. -/
noncomputable def ramaPillarVertices (sector : Sector)
    (geometry : Option RamaGeometry) : Except String (List (ℝ × ℝ × ℝ)) :=
  match geometry with
  | none => Except.error mustGenerateFirst
  | some g =>
    let num_segments : ℕ := 60
    let angle_start : ℝ := if sector = Sector.A then -(Real.pi / 2) else 0
    let angle_end : ℝ := if sector = Sector.A then Real.pi / 2 else Real.pi
    let x_offset : ℝ := if sector = Sector.A
      then -((g.pillar_separation : ℝ) / 2) else (g.pillar_separation : ℝ) / 2
    let ringAt := fun (r : ℝ) => (List.range (num_segments + 1)).flatMap (fun i =>
      let t := (i : ℝ) / (num_segments : ℝ)
      let angle := angle_start + t * (angle_end - angle_start)
      let x := x_offset + r * Real.cos angle
      let y := r * Real.sin angle
      [(x, y, 0), (x, y, (g.pillar_height : ℝ))])
    Except.ok (ringAt (g.pillar_radius : ℝ) ++
      ringAt ((g.pillar_radius : ℝ) - (g.wall_thickness : ℝ)))

def cardinalDirections : List String :=
  [r"N", r"NNE", r"NE", r"ENE", r"E", r"ESE", r"SE", r"SSE",
    r"S", r"SSW", r"SW", r"WSW", r"W", r"WNW", r"NW", r"NNW"]

def cardinalFallback : String := "N"

/-- `RamaYantraGenerator._azimuth_to_cardinal` (rama_yantra.py 322-327).
Python `round` is banker's rounding, but `azimuth / 22.5` is never an
exact half-integer for the integer azimuths this is called with, so
`round` here agrees with it; Python `% 16` on an int is `Int.emod`. -/
def azimuthToCardinal (azimuth : ℚ) : String :=
  cardinalDirections.getD ((round (azimuth / 22.5)) % 16).toNat cardinalFallback

structure AzimuthMark where
  azimuth : ℕ
  cardinal : String
  start : ℝ × ℝ × ℝ
  endPoint : ℝ × ℝ × ℝ
  sector : Sector
  major : Bool

/-- `RamaYantraGenerator.get_azimuth_markings` (rama_yantra.py 179-222):
one radial line per whole degree. -/
noncomputable def ramaAzimuthMarkings
    (geometry : Option RamaGeometry) : Except String (List AzimuthMark) :=
  match geometry with
  | none => Except.error mustGenerateFirst
  | some g => Except.ok ((List.range 360).map (fun (azimuth : ℕ) =>
      let angle_rad := radians (azimuth : ℝ)
      let start_radius := (g.central_platform_radius : ℝ)
      let end_radius := (g.pillar_radius : ℝ) - (g.wall_thickness : ℝ)
      let start_x := start_radius * Real.sin angle_rad
      let start_y := start_radius * Real.cos angle_rad
      let end_x := end_radius * Real.sin angle_rad
      let end_y := end_radius * Real.cos angle_rad
      let in_sector_A := (45 ≤ azimuth ∧ azimuth ≤ 135) ∨
        (225 ≤ azimuth ∧ azimuth ≤ 315)
      ⟨azimuth, azimuthToCardinal (azimuth : ℚ), (start_x, start_y, 0),
        (end_x, end_y, 0), (if in_sector_A then Sector.A else Sector.B),
        azimuth % 10 == 0⟩))

structure AltitudeMark where
  altitude : ℕ
  wall_height : ℝ
  theoretical_height : ℝ
  sector : Sector
  major : Bool

/-- `RamaYantraGenerator.get_altitude_scale` (rama_yantra.py 224-267):
one mark per whole degree 0-90. -/
noncomputable def ramaAltitudeScale (sector : Sector)
    (geometry : Option RamaGeometry) : Except String (List AltitudeMark) :=
  match geometry with
  | none => Except.error mustGenerateFirst
  | some g => Except.ok ((List.range 91).map (fun (altitude : ℕ) =>
      let heightFrac := (altitude : ℝ) / 90.0
      let wall_height := heightFrac * (g.altitude_scale_height : ℝ)
      let theoretical_height := if altitude < 89
        then (g.gnomon_height : ℝ) * Real.tan (radians (altitude : ℝ))
        else (g.altitude_scale_height : ℝ)
      ⟨altitude, min wall_height (g.pillar_height : ℝ),
        min theoretical_height (g.pillar_height : ℝ), sector,
        altitude % 5 == 0⟩))

/-- Flattened form of the nested dict built by
`RamaYantraGenerator.get_dimensions_dict` (rama_yantra.py 329-365);
the constant label strings of the source dict are not modelled. -/
structure RamaDimensions where
  yantra_type : String
  latitude : ℝ
  scale : ℚ
  pillar_radius : ℚ
  pillar_height : ℚ
  pillar_separation : ℚ
  wall_thickness : ℚ
  azimuth_divisions : ℕ
  altitude_scale_height : ℚ
  central_platform_radius : ℚ
  gnomon_height : ℚ
  base_diameter : ℚ
  base_height : ℚ
  overall_diameter : ℚ
  overall_height : ℚ

/-- `RamaYantraGenerator.get_dimensions_dict` (rama_yantra.py 329-365). -/
noncomputable def ramaDimensionsDict (latitude : ℝ) (scale : ℚ)
    (geometry : Option RamaGeometry) : Except String RamaDimensions :=
  match geometry with
  | none => Except.error mustGenerateFirst
  | some g => Except.ok ⟨r"rama", degrees latitude, scale,
      g.pillar_radius, g.pillar_height, g.pillar_separation,
      g.wall_thickness, g.azimuth_divisions, g.altitude_scale_height,
      g.central_platform_radius, g.gnomon_height, g.base_diameter,
      g.base_height, g.base_diameter, g.pillar_height + g.base_height⟩

/-- `RamaYantraGenerator.get_bill_of_materials` (rama_yantra.py 369-441). -/
noncomputable def ramaBillOfMaterials
    (geometry : Option RamaGeometry) : Except String (List BomItem) :=
  match geometry with
  | none => Except.error mustGenerateFirst
  | some g =>
    let outer_volume := Real.pi * (g.pillar_radius : ℝ) ^ 2 *
      (g.pillar_height : ℝ) / 2
    let inner_volume := Real.pi *
      ((g.pillar_radius : ℝ) - (g.wall_thickness : ℝ)) ^ 2 *
      (g.pillar_height : ℝ) / 2
    let wall_volume_per_pillar := outer_volume - inner_volume
    let floor_area := Real.pi *
      ((g.pillar_radius : ℝ) - (g.wall_thickness : ℝ)) ^ 2
    let base_volume := Real.pi * ((g.base_diameter : ℝ) / 2) ^ 2 *
      (g.base_height : ℝ)
    Except.ok [
      ⟨r"Cylindrical pillar walls (Sector A)", r"Masonry/Concrete", 1,
        some wall_volume_per_pillar, none⟩,
      ⟨r"Cylindrical pillar walls (Sector B)", r"Masonry/Concrete", 1,
        some wall_volume_per_pillar, none⟩,
      ⟨r"Floor surface with graduations", r"Polished marble/stone", 1,
        none, some floor_area⟩,
      ⟨r"Central gnomon (vertical rod)", r"Metal/Stone", 1, none, none⟩,
      ⟨r"Central platform", r"Stone/Concrete", 1, none, none⟩,
      ⟨r"Base platform", r"Concrete", 1, some base_volume, none⟩,
      ⟨r"Altitude scale markings", r"Engraved/Painted graduations", 2,
        none, none⟩]

/-! ## Claims -/

/-- C10: for scale 1 m (any latitude, any material thickness, default
kerf 0) the equatorial-dial `generate` returns gnomon height 1,
gnomon base width 0.15, quadrant radius 0.7, and the ordered 13-element
hour-angle sequence from -90 to 90 in steps of 15. -/
theorem samrat_scenario_dimensions (material_thickness : ℚ) :
    samratGenerate 1 material_thickness 0 true =
      Except.ok (samratGeometry 1 material_thickness 0 true) ∧
    (samratGeometry 1 material_thickness 0 true).gnomon_height = 1 ∧
    (samratGeometry 1 material_thickness 0 true).gnomon_base_width = 0.15 ∧
    (samratGeometry 1 material_thickness 0 true).quadrant_radius = 0.7 ∧
    (samratGeometry 1 material_thickness 0 true).hour_line_angles =
      [-90, -75, -60, -45, -30, -15, 0, 15, 30, 45, 60, 75, 90] ∧
    (samratGeometry 1 material_thickness 0 true).hour_line_angles.length = 13 := by
  refine ⟨rfl, by norm_num [samratGeometry], by norm_num [samratGeometry],
    by norm_num [samratGeometry], by norm_num [samratGeometry, List.range_succ],
    by simp [samratGeometry]⟩

/-- C9: for scale 1 m, kerf 0 and any material thickness at most 0.1 m
(the API request default is 0.01), the alt-azimuth `generate` returns
pillar radius 1, pillar height 2, pillar separation 0.5, wall thickness
0.1 computed as `max(materialThickness, 0.1 * radius)`, and gnomon
height 0.6. -/
theorem rama_scenario_dimensions (material_thickness : ℚ)
    (hmt : material_thickness ≤ 0.1) :
    ramaGenerate 1 material_thickness 0 true =
      Except.ok (ramaGeometry 1 material_thickness 0 true) ∧
    (ramaGeometry 1 material_thickness 0 true).pillar_radius = 1 ∧
    (ramaGeometry 1 material_thickness 0 true).pillar_height = 2 ∧
    (ramaGeometry 1 material_thickness 0 true).pillar_separation = 0.5 ∧
    (ramaGeometry 1 material_thickness 0 true).wall_thickness =
      max material_thickness (1 * 0.1) ∧
    (ramaGeometry 1 material_thickness 0 true).wall_thickness = 0.1 ∧
    (ramaGeometry 1 material_thickness 0 true).gnomon_height = 0.6 := by
  have hwall : (ramaGeometry 1 material_thickness 0 true).wall_thickness =
      max material_thickness (1 * 0.1) := by
    simp [ramaGeometry]
  refine ⟨rfl, by norm_num [ramaGeometry], by norm_num [ramaGeometry],
    by norm_num [ramaGeometry], hwall, ?_, by norm_num [ramaGeometry]⟩
  rw [hwall]
  have : (1 * 0.1 : ℚ) = 0.1 := by norm_num
  rw [this]
  exact max_eq_right hmt

/-- Witness for C9 at the API default material thickness 0.01. -/
theorem rama_scenario_dimensions_witness :
    (0.01 : ℚ) ≤ 0.1 ∧
    ((ramaGeometry 1 0.01 0 true).pillar_radius = 1 ∧
      (ramaGeometry 1 0.01 0 true).wall_thickness = 0.1 ∧
      (ramaGeometry 1 0.01 0 true).gnomon_height = 0.6) :=
  ⟨by norm_num,
    (rama_scenario_dimensions 0.01 (by norm_num)).2.1,
    (rama_scenario_dimensions 0.01 (by norm_num)).2.2.2.2.2.1,
    (rama_scenario_dimensions 0.01 (by norm_num)).2.2.2.2.2.2⟩

/-- C8: for any latitude-independent generation inputs and positive kerf,
no radius or width of either geometry drops below its zero-kerf value; in
the equatorial-dial generator the kerf is added exactly to the gnomon
base width and the quadrant radius, every other field staying equal. -/
theorem kerf_only_expands (scale material_thickness kerf : ℚ)
    (include_base : Bool) (hk : 0 < kerf) :
    ((samratGeometry scale material_thickness kerf include_base).gnomon_base_width =
      (samratGeometry scale material_thickness 0 include_base).gnomon_base_width + kerf ∧
    (samratGeometry scale material_thickness kerf include_base).quadrant_radius =
      (samratGeometry scale material_thickness 0 include_base).quadrant_radius + kerf ∧
    (samratGeometry scale material_thickness 0 include_base).gnomon_base_width ≤
      (samratGeometry scale material_thickness kerf include_base).gnomon_base_width ∧
    (samratGeometry scale material_thickness 0 include_base).quadrant_radius ≤
      (samratGeometry scale material_thickness kerf include_base).quadrant_radius ∧
    (samratGeometry scale material_thickness kerf include_base).gnomon_height =
      (samratGeometry scale material_thickness 0 include_base).gnomon_height ∧
    (samratGeometry scale material_thickness kerf include_base).gnomon_thickness =
      (samratGeometry scale material_thickness 0 include_base).gnomon_thickness ∧
    (samratGeometry scale material_thickness kerf include_base).hour_line_angles =
      (samratGeometry scale material_thickness 0 include_base).hour_line_angles ∧
    (samratGeometry scale material_thickness kerf include_base).scale_divisions =
      (samratGeometry scale material_thickness 0 include_base).scale_divisions ∧
    (samratGeometry scale material_thickness kerf include_base).base_length =
      (samratGeometry scale material_thickness 0 include_base).base_length ∧
    (samratGeometry scale material_thickness kerf include_base).base_width =
      (samratGeometry scale material_thickness 0 include_base).base_width ∧
    (samratGeometry scale material_thickness kerf include_base).base_height =
      (samratGeometry scale material_thickness 0 include_base).base_height) ∧
    ((ramaGeometry scale material_thickness kerf include_base).pillar_radius =
      (ramaGeometry scale material_thickness 0 include_base).pillar_radius + kerf ∧
    (ramaGeometry scale material_thickness kerf include_base).wall_thickness =
      (ramaGeometry scale material_thickness 0 include_base).wall_thickness + kerf ∧
    (ramaGeometry scale material_thickness 0 include_base).pillar_radius ≤
      (ramaGeometry scale material_thickness kerf include_base).pillar_radius ∧
    (ramaGeometry scale material_thickness 0 include_base).wall_thickness ≤
      (ramaGeometry scale material_thickness kerf include_base).wall_thickness ∧
    (ramaGeometry scale material_thickness kerf include_base).pillar_height =
      (ramaGeometry scale material_thickness 0 include_base).pillar_height ∧
    (ramaGeometry scale material_thickness kerf include_base).pillar_separation =
      (ramaGeometry scale material_thickness 0 include_base).pillar_separation ∧
    (ramaGeometry scale material_thickness kerf include_base).azimuth_divisions =
      (ramaGeometry scale material_thickness 0 include_base).azimuth_divisions ∧
    (ramaGeometry scale material_thickness kerf include_base).altitude_scale_height =
      (ramaGeometry scale material_thickness 0 include_base).altitude_scale_height ∧
    (ramaGeometry scale material_thickness kerf include_base).central_platform_radius =
      (ramaGeometry scale material_thickness 0 include_base).central_platform_radius ∧
    (ramaGeometry scale material_thickness kerf include_base).gnomon_height =
      (ramaGeometry scale material_thickness 0 include_base).gnomon_height ∧
    (ramaGeometry scale material_thickness kerf include_base).base_diameter =
      (ramaGeometry scale material_thickness 0 include_base).base_diameter ∧
    (ramaGeometry scale material_thickness kerf include_base).base_height =
      (ramaGeometry scale material_thickness 0 include_base).base_height) := by
  simp only [samratGeometry, ramaGeometry, if_pos hk]
  norm_num
  linarith

/-- Witness for C8 at scale 1 m, thickness 0.01 m, kerf 1 mm. -/
theorem kerf_only_expands_witness :
    (0 : ℚ) < 0.001 ∧
    ((samratGeometry 1 0.01 0.001 true).quadrant_radius =
      (samratGeometry 1 0.01 0 true).quadrant_radius + 0.001 ∧
    (ramaGeometry 1 0.01 0.001 true).pillar_radius =
      (ramaGeometry 1 0.01 0 true).pillar_radius + 0.001) :=
  ⟨by norm_num,
    (kerf_only_expands 1 0.01 0.001 true (by norm_num)).1.2.1,
    (kerf_only_expands 1 0.01 0.001 true (by norm_num)).2.1⟩

/-- C5 counterexample: with the non-positive scale -1 both `generate`
methods succeed (no `InvalidStateError`, no error of any kind) and hand
back a geometry whose leading dimension is the negative scale. -/
theorem generate_no_scale_check :
    isErr (samratGenerate (-1) 0.01 0 true) = false ∧
    isErr (ramaGenerate (-1) 0.15 0 true) = false ∧
    (samratGeometry (-1) 0.01 0 true).gnomon_height = -1 ∧
    (ramaGeometry (-1) 0.15 0 true).pillar_radius = -1 := by
  refine ⟨rfl, rfl, rfl, by norm_num [ramaGeometry]⟩

/-- C5 amended: neither `generate` validates the scale; for every
non-positive scale both calls succeed and return a geometry. -/
theorem generate_accepts_nonpositive_scale
    (scale material_thickness kerf : ℚ) (include_base : Bool)
    (_hs : scale ≤ 0) :
    isErr (samratGenerate scale material_thickness kerf include_base) = false ∧
    isErr (ramaGenerate scale material_thickness kerf include_base) = false :=
  ⟨rfl, rfl⟩

/-- Witness for the amended C5 at scale -1. -/
theorem generate_accepts_nonpositive_scale_witness :
    (-1 : ℚ) ≤ 0 ∧
    (isErr (samratGenerate (-1) 0.01 0 true) = false ∧
      isErr (ramaGenerate (-1) 0.01 0 true) = false) :=
  ⟨by norm_num, generate_accepts_nonpositive_scale (-1) 0.01 0 true (by norm_num)⟩

/-- C6: every derived-query method of both generators raises the
must-call-generate error exactly when the stored geometry is still
`none`, i.e. before a successful `generate`; with a stored geometry the
same call returns a value. -/
theorem derived_queries_guard (latitude : ℝ) (scale : ℚ) (sector : Sector)
    (stS : Option SamratGeometry) (stR : Option RamaGeometry) :
    (isErr (samratHourLineCoordinates latitude stS) = true ↔ stS = none) ∧
    (isErr (samratGnomonVertices latitude stS) = true ↔ stS = none) ∧
    (isErr (samratDimensionsDict latitude scale stS) = true ↔ stS = none) ∧
    (isErr (samratBillOfMaterials stS) = true ↔ stS = none) ∧
    (isErr (ramaPillarVertices sector stR) = true ↔ stR = none) ∧
    (isErr (ramaAzimuthMarkings stR) = true ↔ stR = none) ∧
    (isErr (ramaAltitudeScale sector stR) = true ↔ stR = none) ∧
    (isErr (ramaDimensionsDict latitude scale stR) = true ↔ stR = none) ∧
    (isErr (ramaBillOfMaterials stR) = true ↔ stR = none) := by
  cases stS <;> cases stR <;>
    simp [samratHourLineCoordinates, samratGnomonVertices,
      samratDimensionsDict, samratBillOfMaterials, ramaPillarVertices,
      ramaAzimuthMarkings, ramaAltitudeScale, ramaDimensionsDict,
      ramaBillOfMaterials, isErr]

/-- The service's wrapped difference of an angle with itself is zero. -/
theorem smallestAzimuthDifference_self (z : ℝ) :
    smallestAzimuthDifference z z = 0 := by
  rw [smallestAzimuthDifference]
  have h : z - z + 540 = (540 : ℝ) := by ring
  have h540 : pymod (540 : ℝ) 360 = 540 - (1 : ℤ) * 360 :=
    pymod_eq_of_window 540 360 1 (by norm_num) (by norm_num) (by norm_num)
  rw [h, h540]
  norm_num

/-- C2 amended: the `ValidationService` azimuth error is exactly the
wrap-corrected formula, always lands in `[0, 180]`, and maps the pair
(predicted 2, true 359) to 3; the claim fails for the API-layer
validator, which uses a plain absolute difference. -/
theorem service_azimuth_error_wraps :
    (∀ az_pred truth_az : ℝ,
      smallestAzimuthDifference az_pred truth_az =
        |pymod (az_pred - truth_az + 180) 360 - 180| ∧
      0 ≤ smallestAzimuthDifference az_pred truth_az ∧
      smallestAzimuthDifference az_pred truth_az ≤ 180) ∧
    smallestAzimuthDifference 2 359 = 3 := by
  constructor
  · intro p t
    have h360 : (0 : ℝ) < 360 := by norm_num
    have hshift : pymod (p - t + 540) 360 = pymod (p - t + 180) 360 := by
      have h : p - t + 540 = p - t + 180 + 360 := by ring
      rw [h, pymod_add_period _ _ h360]
    refine ⟨by rw [smallestAzimuthDifference, hshift], abs_nonneg _, ?_⟩
    have hb := pymod_mem_Ico (p - t + 540) 360 h360
    rw [smallestAzimuthDifference, abs_le]
    exact ⟨by linarith [hb.1], by linarith [hb.2]⟩
  · rw [smallestAzimuthDifference]
    have h : (2 : ℝ) - 359 + 540 = 183 := by norm_num
    have h183 : pymod (183 : ℝ) 360 = 183 - (0 : ℤ) * 360 :=
      pymod_eq_of_window 183 360 0 (by norm_num) (by norm_num) (by norm_num)
    rw [h, h183]
    norm_num

/-- C2 counterexample: the API validator's azimuth error at predicted 2
and true 359 is 357, not the wrap-corrected value 3, and exceeds 180. -/
theorem api_azimuth_error_unwrapped :
    apiAzimuthError (some 2) 359 = 357 ∧
    apiAzimuthError (some 2) 359 ≠
      |pymod ((2 : ℝ) - 359 + 180) 360 - 180| ∧
    ¬ apiAzimuthError (some 2) 359 ≤ 180 := by
  have h1 : apiAzimuthError (some 2) 359 = 357 := by
    rw [apiAzimuthError, Option.getD_some]
    rw [show (2 : ℝ) - 359 = -357 by norm_num]
    rw [abs_neg]
    exact abs_of_nonneg (by norm_num)
  have h2 : |pymod ((2 : ℝ) - 359 + 180) 360 - 180| = 3 := by
    rw [show (2 : ℝ) - 359 + 180 = -177 by norm_num]
    have h := pymod_eq_of_window (-177 : ℝ) 360 (-1)
      (by norm_num) (by norm_num) (by norm_num)
    rw [h]
    norm_num
  exact ⟨h1, by rw [h1, h2]; norm_num, by rw [h1]; norm_num⟩

/-- C3: the Samrat prediction dict carries no `altitude_reading` or
`azimuth_reading` key, so `compare_shadow` substitutes the oracle truth
for both predictions and reports zero altitude, azimuth and RMS error at
every latitude, geometry and sun position. -/
theorem samrat_validation_errors_vanish (latitude : ℝ) (g : SamratGeometry)
    (truth_alt truth_az : ℝ) :
    (samratShadowPrediction latitude g truth_alt truth_az).altitude_reading = none ∧
    (samratShadowPrediction latitude g truth_alt truth_az).azimuth_reading = none ∧
    (compareShadowSamrat latitude g truth_alt truth_az).altitude_error = 0 ∧
    (compareShadowSamrat latitude g truth_alt truth_az).azimuth_error = 0 ∧
    (compareShadowSamrat latitude g truth_alt truth_az).rms_error = 0 := by
  refine ⟨rfl, rfl, ?_, ?_, ?_⟩ <;>
    simp [compareShadowSamrat, compareShadow, samratShadowPrediction,
      smallestAzimuthDifference_self]

/-- C4: the Rama prediction reports `azimuth_reading` equal to the shadow
azimuth `(trueAzimuth + 180) mod 360`; for every true azimuth in
`[0, 360)` both validator implementations therefore report an azimuth
error of exactly 180 degrees, and the API validator assigns the `poor`
accuracy tier. -/
theorem rama_azimuth_always_poor (g : RamaGeometry) (truth_alt truth_az : ℝ)
    (h0 : 0 ≤ truth_az) (h1 : truth_az < 360) :
    (ramaShadowPrediction g truth_alt truth_az).azimuth_reading =
      some (pymod (truth_az + 180) 360) ∧
    (compareShadowRama g truth_alt truth_az).azimuth_error = 180 ∧
    apiAzimuthError (ramaShadowPrediction g truth_alt truth_az).azimuth_reading
      truth_az = 180 ∧
    accuracyFor (apiMaxError
      (ramaShadowPrediction g truth_alt truth_az).altitude_reading
      (ramaShadowPrediction g truth_alt truth_az).azimuth_reading
      truth_alt truth_az) = AccuracyLevel.poor := by
  have h360 : (0 : ℝ) < 360 := by norm_num
  have hshadow : pymod (truth_az + 180) 360 - truth_az = 180 ∨
      pymod (truth_az + 180) 360 - truth_az = -180 := by
    rcases lt_or_le truth_az 180 with hc | hc
    · left
      have h := pymod_eq_of_window (truth_az + 180) 360 0 h360
        (by push_cast; linarith) (by push_cast; linarith)
      rw [h]
      push_cast
      ring
    · right
      have h := pymod_eq_of_window (truth_az + 180) 360 1 h360
        (by push_cast; linarith) (by push_cast; linarith)
      rw [h]
      push_cast
      ring
  have hapi : apiAzimuthError (some (pymod (truth_az + 180) 360)) truth_az = 180 := by
    rw [apiAzimuthError, Option.getD_some]
    rcases hshadow with h | h
    · rw [h]
      exact abs_of_nonneg (by norm_num)
    · rw [h, abs_neg]
      exact abs_of_nonneg (by norm_num)
  have hsvc : smallestAzimuthDifference (pymod (truth_az + 180) 360) truth_az = 180 := by
    rw [smallestAzimuthDifference]
    rcases hshadow with h | h
    · have he : pymod (truth_az + 180) 360 - truth_az + 540 = ((2 : ℤ) : ℝ) * 360 := by
        push_cast
        linarith
      rw [he, pymod_int_mul 360 2 h360]
      norm_num
    · have he : pymod (truth_az + 180) 360 - truth_az + 540 = ((1 : ℤ) : ℝ) * 360 := by
        push_cast
        linarith
      rw [he, pymod_int_mul 360 1 h360]
      norm_num
  have hreading : (ramaShadowPrediction g truth_alt truth_az).azimuth_reading =
      some (pymod (truth_az + 180) 360) := rfl
  have haltr : (ramaShadowPrediction g truth_alt truth_az).altitude_reading =
      some truth_alt := rfl
  refine ⟨hreading, ?_, ?_, ?_⟩
  · show (compareShadow (some truth_alt) (some (pymod (truth_az + 180) 360))
      truth_alt truth_az).azimuth_error = 180
    simp [compareShadow, hsvc]
  · rw [hreading, hapi]
  · rw [hreading, haltr, apiMaxError, hapi]
    have hmax : max (apiAltitudeError (some truth_alt) truth_alt) 180 = 180 := by
      rw [apiAltitudeError, Option.getD_some]
      simp
    rw [hmax, accuracyFor]
    norm_num

/-- Witness for C4 at true azimuth 0 (shadow azimuth 180). -/
theorem rama_azimuth_always_poor_witness :
    (0 : ℝ) ≤ 0 ∧ (0 : ℝ) < 360 ∧
    ((compareShadowRama (ramaGeometry 1 0.15 0 true) 45 0).azimuth_error = 180 ∧
      accuracyFor (apiMaxError
        (ramaShadowPrediction (ramaGeometry 1 0.15 0 true) 45 0).altitude_reading
        (ramaShadowPrediction (ramaGeometry 1 0.15 0 true) 45 0).azimuth_reading
        45 0) = AccuracyLevel.poor) :=
  ⟨le_refl 0, by norm_num,
    (rama_azimuth_always_poor (ramaGeometry 1 0.15 0 true) 45 0
      (le_refl 0) (by norm_num)).2.1,
    (rama_azimuth_always_poor (ramaGeometry 1 0.15 0 true) 45 0
      (le_refl 0) (by norm_num)).2.2.2⟩

/-- C7: the Samrat prediction is readable exactly for altitudes in
(0, 85); the Rama prediction additionally requires the shadow floor
length `gnomonHeight / tan(altitude)` to stay within
`pillarRadius - wallThickness`; at altitude 0 both are unreadable. -/
theorem readable_flag_ranges (g : SamratGeometry) (gr : RamaGeometry)
    (latitude alt az : ℝ) :
    ((samratShadowPrediction latitude g alt az).readable ↔
      (0 < alt ∧ alt < 85)) ∧
    ((ramaShadowPrediction gr alt az).readable ↔
      (0 < alt ∧ alt < 85 ∧
        (gr.gnomon_height : ℝ) / Real.tan (radians alt) ≤
          (gr.pillar_radius : ℝ) - (gr.wall_thickness : ℝ))) ∧
    ¬ (samratShadowPrediction latitude g 0 az).readable ∧
    ¬ (ramaShadowPrediction gr 0 az).readable := by
  refine ⟨Iff.rfl, ?_, ?_, ?_⟩
  · constructor
    · rintro ⟨⟨ha, hb⟩, hw⟩
      rw [if_pos ha] at hw
      exact ⟨ha, hb, hw⟩
    · rintro ⟨ha, hb, hw⟩
      exact ⟨⟨ha, hb⟩, by rw [if_pos ha]; exact hw⟩
  · rintro ⟨h, -⟩
    exact lt_irrefl 0 h
  · rintro ⟨⟨h, -⟩, -⟩
    exact lt_irrefl 0 h

/-- C1: at latitude 0, sun altitude 45 and azimuth 90 (a physically
attainable equinox morning position), the tangent of the hour angle the
code derives is sqrt 2, whereas the spherical identity claimed by the
spec (and by the code's own comment on samrat_yantra.py line 225)
evaluates to -1, so `get_shadow_prediction` does not implement
`tan(HA) = sin(Az) / (cos(Az) sin(lat) - tan(alt) cos(lat))`. -/
theorem samrat_hour_angle_not_spec_identity :
    Real.tan (radians ((samratShadowPrediction (radians 0)
        (samratGeometry 1 0.01 0 true) 45 90).hour_angle)) ≠
      Real.sin (radians 90) /
        (Real.cos (radians 90) * Real.sin (radians 0) -
          Real.tan (radians 45) * Real.cos (radians 0)) := by
  have rad0 : radians 0 = 0 := by simp [radians]
  have rad45 : radians 45 = Real.pi / 4 := by rw [radians]; ring
  have rad90 : radians 90 = Real.pi / 2 := by rw [radians]; ring
  have hcos45 : Real.cos (radians 45) = Real.sqrt 2 / 2 := by
    rw [rad45, Real.cos_pi_div_four]
  have hsin45 : Real.sin (radians 45) = Real.sqrt 2 / 2 := by
    rw [rad45, Real.sin_pi_div_four]
  have hsin90 : Real.sin (radians 90) = 1 := by rw [rad90, Real.sin_pi_div_two]
  have hcos90 : Real.cos (radians 90) = 0 := by rw [rad90, Real.cos_pi_div_two]
  have hsin0 : Real.sin (radians 0) = 0 := by rw [rad0, Real.sin_zero]
  have hcos0 : Real.cos (radians 0) = 1 := by rw [rad0, Real.cos_zero]
  have htan45 : Real.tan (radians 45) = 1 := by rw [rad45, Real.tan_pi_div_four]
  have hs2 : (0 : ℝ) < Real.sqrt 2 := Real.sqrt_pos.2 (by norm_num)
  have hha : (samratShadowPrediction (radians 0)
      (samratGeometry 1 0.01 0 true) 45 90).hour_angle =
      degrees (atan2 (Real.sin (radians 90) / Real.cos (radians 45))
        ((Real.sin (radians 45) - Real.sin (radians 0)) /
          (Real.cos (radians 0) * Real.cos (radians 45)))) := rfl
  have hx : (Real.sin (radians 45) - Real.sin (radians 0)) /
      (Real.cos (radians 0) * Real.cos (radians 45)) = 1 := by
    rw [hsin45, hsin0, hcos0, hcos45]
    rw [sub_zero, one_mul]
    exact div_self (by positivity)
  have hdr : radians (degrees (atan2
      (Real.sin (radians 90) / Real.cos (radians 45)) 1)) =
      atan2 (Real.sin (radians 90) / Real.cos (radians 45)) 1 := by
    rw [radians, degrees]
    field_simp
  have hatan : atan2 (Real.sin (radians 90) / Real.cos (radians 45)) 1 =
      Real.arctan (Real.sin (radians 90) / Real.cos (radians 45) / 1) := by
    rw [atan2, if_pos (by norm_num : (0 : ℝ) < 1)]
  rw [hha, hx, hdr, hatan, Real.tan_arctan, div_one]
  rw [hsin90, hcos45, hcos90, hsin0, htan45, hcos0]
  have hpos : 0 < 1 / (Real.sqrt 2 / 2) := by positivity
  have hneg : (0 : ℝ) * 0 - 1 * 1 = -1 := by norm_num
  rw [hneg]
  intro heq
  rw [heq] at hpos
  norm_num at hpos
